import Mathlib

set_option maxRecDepth 8000

/-!
Shallow embedding of the resource-resolution and property-file merge core of
import_scvi_materials.py (classes ResourceResolver, Property, PropertyFile).
Paths are strings joined with the separator character; the filesystem is an
explicit association list from existing paths to their parsed JSON contents;
Python exceptions are modelled with an explicit error type; the class-level
properties dictionary of PropertyFile is modelled with an explicit heap of
dictionaries in which the class attribute owns reference 0.
-/

/-! Characters and low-level string helpers. -/

def slashCh : Char := '/'

def dotCh : Char := '.'

def underscoreCh : Char := '_'

def upperRCh : Char := 'R'

def zeroCh : Char := '0'

def minusCh : Char := '-'

def quoteCh : Char := Char.ofNat 39

def quoteStr : String := String.singleton quoteCh

def isAsciiLetter (c : Char) : Bool :=
  decide (65 ≤ c.toNat ∧ c.toNat ≤ 90) || decide (97 ≤ c.toNat ∧ c.toNat ≤ 122)

def isAsciiDigit (c : Char) : Bool :=
  decide (48 ≤ c.toNat ∧ c.toNat ≤ 57)

def isAsciiAlnum (c : Char) : Bool :=
  isAsciiLetter c || isAsciiDigit c

/-- If the first list is a prefix of the second, the remainder after it. -/
def dropPre : List Char → List Char → Option (List Char)
  | [], l => some l
  | _ :: _, [] => none
  | p :: ps, c :: cs => if c = p then dropPre ps cs else none

/-- Model of the Python str.split method for a nonempty separator, on
character lists, driven by a fuel argument that is always called with at
least the length of the input so that the fuel-exhausted branch is
unreachable. Scans left to right, splitting at each non-overlapping
occurrence of the separator. -/
def splitSubAux (sep : List Char) : Nat → List Char → List (List Char)
  | _, [] => [[]]
  | 0, l => [l]
  | Nat.succ n, c :: cs =>
    match dropPre sep (c :: cs) with
    | some rest => [] :: splitSubAux sep n rest
    | none =>
      match splitSubAux sep n cs with
      | [] => [[c]]
      | y :: ys => (c :: y) :: ys

/-- Model of the Python str.split method on strings. -/
def pySplitOn (sep s : String) : List String :=
  (splitSubAux sep.toList s.toList.length s.toList).map List.asString

/-- Number of occurrences of a character in a list. -/
def countCh (x : Char) : List Char → Nat
  | [] => 0
  | c :: cs => (if c = x then 1 else 0) + countCh x cs

/-- Model of the Python str.endswith method for a single character. -/
def pyEndsWith (s : String) (c : Char) : Bool :=
  decide (s.toList.getLast? = some c)

/-- Model of the Python substring containment test (the in operator):
a string contains a nonempty substring exactly when splitting on it yields
at least two parts. -/
def strContains (s sub : String) : Bool :=
  Nat.ble 2 (pySplitOn sub s).length

def strStarts (s p : String) : Bool := p.toList.isPrefixOf s.toList

def strEnds (s p : String) : Bool := p.toList.reverse.isPrefixOf s.toList.reverse

def hasSlash (s : String) : Bool := s.toList.contains slashCh

/-! Path model: a path is a string with slash-separated components, as the
Python pathlib Path objects of the source render to. -/

def pathJoin (a b : String) : String := a ++ "/" ++ b

def pathJoin3 (a b c : String) : String := a ++ "/" ++ b ++ "/" ++ c

/-- The suffix of a list after the last occurrence of a character, or the
whole list when the character does not occur. -/
def afterLast (x : Char) : List Char → List Char
  | [] => []
  | c :: cs =>
    if cs.contains x then afterLast x cs
    else if c = x then cs else c :: cs

/-- Index of the last occurrence of a character. -/
def rfindChar (x : Char) : List Char → Option Nat
  | [] => none
  | c :: cs =>
    match rfindChar x cs with
    | some i => some (i + 1)
    | none => if c = x then some 0 else none

/-- Model of the pathlib suffix of a final path component: nonempty only
when the last dot is neither the first nor the last character. -/
def pySuffix (nm : List Char) : List Char :=
  match rfindChar dotCh nm with
  | some i => if 0 < i ∧ i < nm.length - 1 then nm.drop i else []
  | none => []

/-- Model of the pathlib stem of a final path component. -/
def pyStem (nm : List Char) : List Char :=
  match rfindChar dotCh nm with
  | some i => if 0 < i ∧ i < nm.length - 1 then nm.take i else nm
  | none => nm

/-- The final component of a path string. -/
def pathNameChars (p : String) : List Char := afterLast slashCh p.toList

/-- The condition path.stem equals path.suffix with its leading dot removed,
tested at line 80 of the source. -/
def stemEqSuffixTail (p : String) : Bool :=
  decide (pyStem (pathNameChars p) = (pySuffix (pathNameChars p)).drop 1)

/-- Model of the pathlib with_suffix method: remove the current suffix of
the final component and append the new one. -/
def withSuffix (p ext : String) : String :=
  let cs := p.toList
  ((cs.take (cs.length - (pySuffix (pathNameChars p)).length)) ++ ext.toList).asString

/-! JSON documents and the filesystem environment. -/

/-- Parsed JSON values as the source consumes them. Numbers are modelled by
rationals: the source only stores parsed numbers, it never computes with
them, so exact values are a faithful abstraction of Python floats here. -/
inductive Json where
  | str (s : String)
  | num (q : Rat)
  | arr (elems : List Json)
  | obj (fields : List (String × Json))

/-- The filesystem: an association list from the paths of the files that
exist to their contents, already parsed as JSON (every file the claims
exercise holds well-formed JSON text). -/
abbrev FS := List (String × Json)

def lookupFS (fs : FS) (p : String) : Option Json :=
  (fs.find? (fun e => e.fst == p)).map (fun e => e.snd)

def pathExists (fs : FS) (p : String) : Bool := (lookupFS fs p).isSome

/-! ResourceType (lines 45 to 63 of the source). -/

inductive ResourceType where
  | UNKNOWN
  | INT
  | FLOAT
  | BOOL
  | ARRAY
  | CHARA_MAT
  | TEXTURE_2D
  | VECTOR_4
deriving DecidableEq

def ResourceType.fromString (s : String) : ResourceType :=
  if s = "MaterialInstanceConstant" then ResourceType.CHARA_MAT
  else if s = "Material3" then ResourceType.CHARA_MAT
  else if s = "Texture2D" then ResourceType.TEXTURE_2D
  else ResourceType.UNKNOWN

/-! The character-material name pattern and the DLC table
(lines 33 to 43 of the source). -/

/-- The table mapping character numbers to DLC numbers (line 34). -/
def CHARA_DLC_MAP : List (Nat × Nat) :=
  [(60, 1), (30, 4), (17, 6), (28, 7), (61, 9), (22, 11), (9, 13)]

/-- After the captured digits the pattern requires an underscore followed by
at least one ASCII letter or digit. -/
def charaTailOk : List Char → Bool
  | u :: c :: _ => decide (u = underscoreCh) && isAsciiAlnum c
  | _ => false

/-- Model of CHARA_MAT_RE.match: a prefix match of the regular expression
letters, underscore, the letter R, an optional zero, a captured nonempty
digit group, an underscore, and a nonempty alphanumeric run. Returns the
captured digit group. The only backtracking point of the pattern is the
optional zero: it is taken exactly when at least one further digit follows
it, otherwise the zero itself starts the captured group. -/
def matchCharaMat (name : String) : Option (List Char) :=
  let cs := name.toList
  let letters := cs.takeWhile isAsciiLetter
  if letters.isEmpty then none
  else
    match cs.drop letters.length with
    | u :: r1 =>
      if u = underscoreCh then
        match r1 with
        | rc :: r2 =>
          if rc = upperRCh then
            if decide (r2.head? = some zeroCh)
                && !((r2.drop 1).takeWhile isAsciiDigit).isEmpty then
              let ds := (r2.drop 1).takeWhile isAsciiDigit
              if charaTailOk (r2.drop (1 + ds.length)) then some ds else none
            else
              let ds := r2.takeWhile isAsciiDigit
              if !ds.isEmpty && charaTailOk (r2.drop ds.length) then some ds
              else none
          else none
        | [] => none
      else none
    | [] => none

/-- Model of the Python int conversion of a captured digit group. -/
def digitsToNat (l : List Char) : Nat :=
  l.foldl (fun a c => a * 10 + (c.toNat - 48)) 0

/-- Zero padding to a fixed width, as the format specifications with fill
zero and right alignment at line 104 and line 107 of the source produce. -/
def padZero (w : Nat) (n : Nat) : String :=
  let s := toString n
  (List.replicate (w - s.length) zeroCh).asString ++ s

/-- The ordered candidate root list built for a bare character-material name
(lines 91 to 107 of the source): the common resource root, then the common
character-material root, then, when the name matches the pattern, either the
DLC root (when the character number is a key of the DLC table) or the plain
per-character root, the two being mutually exclusive. -/
def charaMatSearchPaths (name : String) : List String :=
  let common := ["Common/BasicResource", "Chara/CMN/Material"]
  match matchCharaMat name with
  | none => common
  | some ds =>
    let characterId := digitsToNat ds
    match List.lookup characterId CHARA_DLC_MAP with
    | some dlcNo =>
      common ++ ["DLC/" ++ padZero 2 dlcNo ++ "/Chara/"
        ++ padZero 3 characterId ++ "/Material"]
    | none =>
      common ++ ["Chara/" ++ padZero 3 characterId ++ "/Material"]

/-! ResourceResolver (lines 65 to 131 of the source). -/

structure ResourceResolver where
  basePath : String

/-- Model of ResourceResolver.resolveResourcePath (lines 75 to 122). -/
def ResourceResolver.resolveResourcePath (r : ResourceResolver) (fs : FS)
    (resType : ResourceType) (name : String) : Option String :=
  if hasSlash name then
    let path0 := pathJoin r.basePath name
    let path :=
      if stemEqSuffixTail path0 then
        match resType with
        | ResourceType.TEXTURE_2D => withSuffix path0 ".tga"
        | ResourceType.CHARA_MAT => withSuffix path0 ".props.json"
        | _ => path0
      else path0
    if pathExists fs path then some path else none
  else
    match resType with
    | ResourceType.CHARA_MAT =>
      ((charaMatSearchPaths name).map
        (fun p => pathJoin3 r.basePath p (name ++ ".props.json"))).find?
        (fun mp => pathExists fs mp)
    | ResourceType.TEXTURE_2D =>
      ((["Common/BasicResource", "Chara/CMN/Texture"]).map
        (fun p => pathJoin3 r.basePath p (name ++ ".tga"))).find?
        (fun mp => pathExists fs mp)
    | _ => none

/-- Model of ResourceResolver.readResource (lines 124 to 131): when the path
cannot be resolved the failure is logged and the Python None is returned,
modelled by the none value; otherwise the file contents are returned. -/
def ResourceResolver.readResource (r : ResourceResolver) (fs : FS)
    (resType : ResourceType) (name : String) : Option Json :=
  match ResourceResolver.resolveResourcePath r fs resType name with
  | none => none
  | some p => lookupFS fs p

/-! Property values and Python exceptions. -/

/-- The value slot of a Property: the source stores strings, converted
floats, four-element float lists, or the raw JSON value unchanged. -/
inductive PValue where
  | str (s : String)
  | float (q : Rat)
  | floatList (l : List Rat)
  | json (j : Json)

/-- Model of the Property class (lines 135 to 145). -/
structure Property where
  value : PValue
  propertyType : ResourceType

/-- The Python exceptions the modelled code can raise. -/
inductive PyErr where
  | typeError
  | valueError
  | keyError (k : String)
  | attributeError
deriving DecidableEq

/-- Model of the Python float conversion for the subset the source feeds it:
a number stays itself; a decimal string with an optional minus sign, an
integer part and an optional fraction part converts exactly; exponent and
other special string forms are outside the model (no claim exercises the
string case at all); other values raise TypeError. -/
def decDigitsVal (l : List Char) : Nat :=
  l.foldl (fun a c => a * 10 + (c.toNat - 48)) 0

def parseDecimalAux (l2 : List Char) : Option Rat :=
  let intPart := l2.takeWhile isAsciiDigit
  let rest := l2.drop intPart.length
  match rest with
  | [] => if intPart.isEmpty then none else some ((decDigitsVal intPart : Nat) : Rat)
  | c :: frac =>
    if decide (c = dotCh) && frac.all isAsciiDigit
        && !(intPart.isEmpty && frac.isEmpty) then
      some (((decDigitsVal intPart * 10 ^ frac.length + decDigitsVal frac : Nat) : Rat)
        / ((10 ^ frac.length : Nat) : Rat))
    else none

def parseDecimal (s : String) : Option Rat :=
  match s.toList with
  | [] => none
  | c :: rest =>
    if c = minusCh then (parseDecimalAux rest).map (fun q => -q)
    else parseDecimalAux (c :: rest)

def pyFloat : Json → Except PyErr Rat
  | Json.num q => Except.ok q
  | Json.str s =>
    match parseDecimal s with
    | some q => Except.ok q
    | none => Except.error PyErr.valueError
  | _ => Except.error PyErr.typeError

/-- Model of Python subscription with a string key: dictionaries look the
key up and raise KeyError when absent; any other value raises TypeError. -/
def lookupField : List (String × Json) → String → Option Json
  | [], _ => none
  | (k, v) :: rest, key => if k = key then some v else lookupField rest key

def getItem (j : Json) (key : String) : Except PyErr Json :=
  match j with
  | Json.obj fields =>
    match lookupField fields key with
    | some v => Except.ok v
    | none => Except.error (PyErr.keyError key)
  | _ => Except.error PyErr.typeError

/-- Property names used as dictionary keys: in every document the source
consumes the name field is a JSON string; non-string names are outside the
model. -/
def asStringKey : Json → Except PyErr String
  | Json.str s => Except.ok s
  | _ => Except.error PyErr.typeError

/-! The shared property dictionary. In the source, properties is a
class-level attribute of PropertyFile initialised once with an empty
dictionary (line 151), and the constructor (lines 154 to 157) assigns only
resourceResolver and contents, so attribute lookup on every instance reaches
the one class dictionary. The heap holds the dictionaries that exist; the
class attribute owns reference 0, the only dictionary ever allocated. -/

abbrev PropMap := List (String × Property)

abbrev Heap := List PropMap

/-- Python dictionary membership. -/
def dictMem (m : PropMap) (k : String) : Bool := m.any (fun kv => kv.fst == k)

/-- Python dictionary assignment: an existing key keeps its position and
gets the new value, a new key is appended. -/
def dictSet (m : PropMap) (k : String) (v : Property) : PropMap :=
  if dictMem m k then m.map (fun kv => if kv.fst == k then (k, v) else kv)
  else m ++ [(k, v)]

def dictGet? (m : PropMap) (k : String) : Option Property :=
  (m.find? (fun kv => kv.fst == k)).map (fun kv => kv.snd)

def heapGet (h : Heap) (ref : Nat) : PropMap := h.getD ref []

def heapSet (h : Heap) (ref : Nat) (m : PropMap) : Heap := h.set ref m

def heapSetKey (h : Heap) (ref : Nat) (k : String) (v : Property) : Heap :=
  heapSet h ref (dictSet (heapGet h ref) k v)

/-- The reference held by the class attribute properties of PropertyFile. -/
def classPropsRef : Nat := 0

/-- The heap after the class body has run: one empty dictionary. -/
def initHeap : Heap := [[]]

/-! PropertyFile (lines 147 to 236 of the source). -/

structure PropertyFile where
  resourceResolver : ResourceResolver
  contents : Option Json
  propsRef : Nat
  parent : Option Property

/-- Model of the PropertyFile constructor (lines 154 to 157): it stores the
resolver and the contents; the properties attribute is not assigned, so the
instance reads the class reference; the parent attribute is not assigned, so
the instance reads the class default None. The contents parameter is an
optional document because callers pass the result of readResource, which can
be the Python None. -/
def mkPropertyFile (contents : Option Json) (r : ResourceResolver) : PropertyFile :=
  { resourceResolver := r, contents := contents,
    propsRef := classPropsRef, parent := none }

/-- Model of PropertyFile.parseProperty (lines 214 to 219): a string value
ending in the quote character is split on the quote character and unpacked
into exactly three parts, raising ValueError on any other part count; other
values are stored unchanged with the type hint. -/
def PropertyFile.parseProperty (value : Json)
    (typeHint : ResourceType := ResourceType.UNKNOWN) : Except PyErr Property :=
  match value with
  | Json.str s =>
    if pyEndsWith s quoteCh then
      match pySplitOn quoteStr s with
      | [typeName, propertyValue, _t] =>
        Except.ok ⟨PValue.str propertyValue, ResourceType.fromString typeName⟩
      | _ => Except.error PyErr.valueError
    else Except.ok ⟨PValue.str s, typeHint⟩
  | j => Except.ok ⟨PValue.json j, typeHint⟩

/-- One record of a Scalar value group (lines 169 to 174). -/
def scalarRecord (nameKey valueKey : String) (ref : Nat) (h : Heap)
    (param : Json) : Except PyErr Heap := do
  let pn ← getItem param nameKey
  let pv ← getItem param valueKey
  let q ← pyFloat pv
  let key ← asStringKey pn
  pure (heapSetKey h ref key (Property.mk (PValue.float q) ResourceType.FLOAT))

/-- One record of a Texture value group (lines 175 to 180). -/
def textureRecord (nameKey valueKey : String) (ref : Nat) (h : Heap)
    (param : Json) : Except PyErr Heap := do
  let pn ← getItem param nameKey
  let pv ← getItem param valueKey
  let prop ← PropertyFile.parseProperty pv ResourceType.UNKNOWN
  let key ← asStringKey pn
  pure (heapSetKey h ref key prop)

/-- One record of a Vector value group (lines 181 to 190): the value field
is subscripted at R, G, B and A in that order, each converted by float, and
the four results are stored as a list in that order. -/
def vectorRecord (nameKey valueKey : String) (ref : Nat) (h : Heap)
    (param : Json) : Except PyErr Heap := do
  let pn ← getItem param nameKey
  let pv ← getItem param valueKey
  let jr ← getItem pv "R"
  let r ← pyFloat jr
  let jg ← getItem pv "G"
  let g ← pyFloat jg
  let jb ← getItem pv "B"
  let b ← pyFloat jb
  let ja ← getItem pv "A"
  let a ← pyFloat ja
  let key ← asStringKey pn
  pure (heapSetKey h ref key
    (Property.mk (PValue.floatList [r, g, b, a]) ResourceType.VECTOR_4))

def foldRecords (f : Heap → Json → Except PyErr Heap) :
    Heap → List Json → Except PyErr Heap
  | h, [] => Except.ok h
  | h, x :: xs =>
    match f h x with
    | Except.error e => Except.error e
    | Except.ok h2 => foldRecords f h2 xs

/-- Iterating the value group: a JSON sequence iterates its records; a
nonempty string or object iterates strings, whose subscription by a string
key raises TypeError; an empty one runs the loop body zero times; numbers
are not iterable and raise TypeError. -/
def forEachRecord (f : Heap → Json → Except PyErr Heap) (h : Heap) :
    Json → Except PyErr Heap
  | Json.arr xs => foldRecords f h xs
  | Json.str s => if s.toList.isEmpty then Except.ok h else Except.error PyErr.typeError
  | Json.obj fields => if fields.isEmpty then Except.ok h else Except.error PyErr.typeError
  | Json.num _ => Except.error PyErr.typeError

/-- The empty-group sentinel test at line 167: the value is the literal
string holding an opening and a closing curly brace. -/
def emptyBraces : String := "\x7b\x7d"

def isEmptySentinel : Json → Bool
  | Json.str s => decide (s = emptyBraces)
  | _ => false

/-- Model of the local function add_properties (lines 165 to 192): return
immediately on the empty-group sentinel; dispatch on the group type name,
discarding unknown group types. -/
def addProperties (typeName : String) (propValue : Json)
    (nameKey valueKey : String) (ref : Nat) (h : Heap) : Except PyErr Heap :=
  if isEmptySentinel propValue then Except.ok h
  else if typeName = "Scalar" then
    forEachRecord (scalarRecord nameKey valueKey ref) h propValue
  else if typeName = "Texture" then
    forEachRecord (textureRecord nameKey valueKey ref) h propValue
  else if typeName = "Vector" then
    forEachRecord (vectorRecord nameKey valueKey ref) h propValue
  else Except.ok h

/-- Model of one iteration of the top-level key loop of PropertyFile.parse
(lines 163 and 193 to 205). The Parent key stores the parsed parent
reference on the instance; a key containing ParameterValues is split on that
substring and unpacked into exactly two parts, raising ValueError otherwise;
the Collected keys branch is deliberately a no-op in the source; every other
key is ignored. -/
def parseField (pf : PropertyFile) (h : Heap) (k : String) (v : Json) :
    Except PyErr (PropertyFile × Heap) :=
  if k = "Parent" then
    match PropertyFile.parseProperty v ResourceType.UNKNOWN with
    | Except.error e => Except.error e
    | Except.ok p => Except.ok ({ pf with parent := some p }, h)
  else if strContains k "ParameterValues" then
    match pySplitOn "ParameterValues" k with
    | [typeName, _u] =>
      match addProperties typeName v "ParameterName" "ParameterValue" pf.propsRef h with
      | Except.error e => Except.error e
      | Except.ok h2 => Except.ok (pf, h2)
    | _ => Except.error PyErr.valueError
  else if strStarts k "Collected" && strEnds k "Parameters" then
    Except.ok (pf, h)
  else Except.ok (pf, h)

def parseFields : PropertyFile → Heap → List (String × Json) →
    Except PyErr (PropertyFile × Heap)
  | pf, h, [] => Except.ok (pf, h)
  | pf, h, (k, v) :: rest =>
    match parseField pf h k v with
    | Except.error e => Except.error e
    | Except.ok (pf2, h2) => parseFields pf2 h2 rest

/-- Model of PropertyFile.parse (lines 159 to 205): json.loads of the
Python None raises TypeError; a document whose top level is not an object
raises AttributeError at the items call; otherwise the key loop runs. -/
def PropertyFile.parse (pf : PropertyFile) (h : Heap) :
    Except PyErr (PropertyFile × Heap) :=
  match pf.contents with
  | none => Except.error PyErr.typeError
  | some (Json.obj fields) => parseFields pf h fields
  | some _ => Except.error PyErr.attributeError

/-- Result of a fuel-bounded run of build: the source recursion has no
depth guard, so the embedding is driven by fuel; the out value means the
recursion is still running past the given depth bound. -/
inductive BuildResult where
  | out
  | err (e : PyErr)
  | ok (pf : PropertyFile) (h : Heap)

/-- The copy loop of mergeWithParents (lines 230 to 236): a parent entry
whose name is already present is skipped, an absent one is appended. -/
def mergeLoop (selfProps parentProps : PropMap) : PropMap :=
  parentProps.foldl
    (fun acc kv => if dictMem acc kv.fst then acc else acc ++ [kv]) selfProps

/-- Model of PropertyFile.mergeWithParents (lines 222 to 236), parameterised
by the build function used on the parent file. With no parent reference it
is a no-op. Otherwise the parent text is fetched with readResource, whose
None result is passed to the PropertyFile constructor unchecked; the parent
file is built recursively; then the copy loop runs. A parent reference whose
value is not a string raises TypeError inside path resolution. -/
def mergeWith (bld : PropertyFile → FS → Heap → BuildResult)
    (pf : PropertyFile) (fs : FS) (h : Heap) : BuildResult :=
  match pf.parent with
  | none => BuildResult.ok pf h
  | some par =>
    match par.value with
    | PValue.str nm =>
      let parentContents :=
        ResourceResolver.readResource pf.resourceResolver fs par.propertyType nm
      let parentPf := mkPropertyFile parentContents pf.resourceResolver
      match bld parentPf fs h with
      | BuildResult.out => BuildResult.out
      | BuildResult.err e => BuildResult.err e
      | BuildResult.ok parentPf2 h2 =>
        let merged := mergeLoop (heapGet h2 pf.propsRef) (heapGet h2 parentPf2.propsRef)
        BuildResult.ok pf (heapSet h2 pf.propsRef merged)
    | _ => BuildResult.err PyErr.typeError

/-- Model of PropertyFile.build (lines 209 to 212): parse, then merge with
the parents; the fuel bounds the recursion depth through parent chains. -/
def PropertyFile.build : Nat → PropertyFile → FS → Heap → BuildResult
  | 0, _, _, _ => BuildResult.out
  | Nat.succ n, pf, fs, h =>
    match PropertyFile.parse pf h with
    | Except.error e => BuildResult.err e
    | Except.ok (pf1, h1) => mergeWith (PropertyFile.build n) pf1 fs h1

/-- Model of PropertyFile.mergeWithParents as called on an already parsed
file, with the given fuel for the recursive build of the parent. -/
def PropertyFile.mergeWithParents (fuel : Nat) (pf : PropertyFile) (fs : FS)
    (h : Heap) : BuildResult :=
  mergeWith (PropertyFile.build fuel) pf fs h

/-! Concrete scenarios used by the claim theorems. -/

/-- Reading a named property out of a parse run started on the empty
class dictionary. -/
def parsedProperty (doc : Json) (rv : ResourceResolver) (k : String) : Option Property :=
  match PropertyFile.parse (mkPropertyFile (some doc) rv) initHeap with
  | Except.ok (pf, h) => dictGet? (heapGet h pf.propsRef) k
  | Except.error _ => none

/-- Reading a named property out of a build run started on the empty
class dictionary. -/
def builtProperty (fuel : Nat) (doc : Json) (rv : ResourceResolver) (fs : FS)
    (k : String) : Option Property :=
  match PropertyFile.build fuel (mkPropertyFile (some doc) rv) fs initHeap with
  | BuildResult.ok pf h => dictGet? (heapGet h pf.propsRef) k
  | _ => none

/-- A child document declaring Metallic 5 and a parent reference to Bar. -/
def c1ChildDoc : Json :=
  Json.obj [("Parent", Json.str ("Material3" ++ quoteStr ++ "Bar" ++ quoteStr)),
    ("ScalarParameterValues", Json.arr [Json.obj
      [("ParameterName", Json.str "Metallic"), ("ParameterValue", Json.num 5)]])]

/-- The parent document of Bar, declaring Metallic 1. -/
def c1ParentDoc : Json :=
  Json.obj [("ScalarParameterValues", Json.arr [Json.obj
    [("ParameterName", Json.str "Metallic"), ("ParameterValue", Json.num 1)]])]

def c1FS : FS := [(pathJoin3 "Base" "Common/BasicResource" "Bar.props.json", c1ParentDoc)]

/-- A document whose parent reference names a resource no filesystem entry
resolves. -/
def c2Doc : Json :=
  Json.obj [("Parent", Json.str ("Material3" ++ quoteStr ++ "Missing" ++ quoteStr))]

def c3Res : ResourceResolver := ⟨"Base"⟩

/-- File A of the circular chain: its parent is BarB. -/
def c3DocA : Json :=
  Json.obj [("Parent", Json.str ("Material3" ++ quoteStr ++ "BarB" ++ quoteStr))]

/-- File B of the circular chain: its parent is BarA. -/
def c3DocB : Json :=
  Json.obj [("Parent", Json.str ("Material3" ++ quoteStr ++ "BarA" ++ quoteStr))]

def c3FS : FS :=
  [(pathJoin3 "Base" "Common/BasicResource" "BarA.props.json", c3DocA),
   (pathJoin3 "Base" "Common/BasicResource" "BarB.props.json", c3DocB)]

/-- The state of file A after parse: parent reference BarB, heap untouched. -/
def c3pfA : PropertyFile :=
  { resourceResolver := c3Res, contents := some c3DocA, propsRef := classPropsRef,
    parent := some ⟨PValue.str "BarB", ResourceType.CHARA_MAT⟩ }

/-- The state of file B after parse: parent reference BarA, heap untouched. -/
def c3pfB : PropertyFile :=
  { resourceResolver := c3Res, contents := some c3DocB, propsRef := classPropsRef,
    parent := some ⟨PValue.str "BarA", ResourceType.CHARA_MAT⟩ }

def c4FS : FS :=
  [(pathJoin3 "Base" "DLC/01/Chara/060/Material" "A_R060_B.props.json", Json.obj [])]

def c5FS : FS := [("Base/a/b/tex.tga", Json.obj [])]

/-- A Vector value-group document with one record. -/
def c7Doc (n : String) (r g b a : Rat) : Json :=
  Json.obj [("VectorParameterValues", Json.arr [Json.obj
    [("ParameterName", Json.str n),
     ("ParameterValue", Json.obj
       [("R", Json.num r), ("G", Json.num g), ("B", Json.num b), ("A", Json.num a)])]])]

def c8FS : FS := [("Base/a/b/c.txt", Json.obj [])]

def c8BareFS : FS :=
  [(pathJoin3 "Base" "Common/BasicResource" "Foo.tga", Json.obj []),
   (pathJoin "Base" "Foo", Json.obj [])]

/-- A document declaring the scalar IsSkin 2. -/
def c9Doc : Json :=
  Json.obj [("ScalarParameterValues", Json.arr [Json.obj
    [("ParameterName", Json.str "IsSkin"), ("ParameterValue", Json.num 2)]])]

/-- A string ending in the quote character and holding three quote
characters in total. -/
def c10Str : String := "A" ++ quoteStr ++ "B" ++ quoteStr ++ "C" ++ quoteStr

/-! Helper lemmas. -/

theorem build_succ_eq (n : Nat) (pf : PropertyFile) (fs : FS) (h : Heap) :
    PropertyFile.build (n + 1) pf fs h =
      (match PropertyFile.parse pf h with
       | Except.error e => BuildResult.err e
       | Except.ok (pf1, h1) => mergeWith (PropertyFile.build n) pf1 fs h1) := rfl

theorem mergeWith_propagates_out (bld : PropertyFile → FS → Heap → BuildResult)
    (pf : PropertyFile) (fs : FS) (h : Heap) (par : Property) (nm : String)
    (hp : pf.parent = some par) (hv : par.value = PValue.str nm)
    (hb : bld (mkPropertyFile
        (ResourceResolver.readResource pf.resourceResolver fs par.propertyType nm)
        pf.resourceResolver) fs h = BuildResult.out) :
    mergeWith bld pf fs h = BuildResult.out := by
  unfold mergeWith
  rw [hp]
  simp only [hv, hb]

/-- Claim C1 (code_bug). The override law fails in the code: the properties
dictionary is a class attribute shared by every PropertyFile, so building
the parent overwrites the child entry for Metallic in place, and the merged
set maps Metallic to the ancestor value 1 even though the child alone parses
it to 5. -/
theorem c1_override_code_bug :
    parsedProperty c1ChildDoc ⟨"Base"⟩ "Metallic"
        = some ⟨PValue.float 5, ResourceType.FLOAT⟩ ∧
    builtProperty 3 c1ChildDoc ⟨"Base"⟩ c1FS "Metallic"
        = some ⟨PValue.float 1, ResourceType.FLOAT⟩ := ⟨rfl, rfl⟩

/-- Claim C2 (code_bug). With an unresolvable parent reference, readResource
logs and returns the Python None, but mergeWithParents passes that None to
the PropertyFile constructor and the recursive build raises TypeError inside
json.loads instead of completing with the child property set. -/
theorem c2_missing_parent_code_bug :
    ResourceResolver.readResource ⟨"Base"⟩ [] ResourceType.CHARA_MAT "Missing" = none ∧
    PropertyFile.build 3 (mkPropertyFile (some c2Doc) ⟨"Base"⟩) [] initHeap
      = BuildResult.err PyErr.typeError := ⟨rfl, rfl⟩

/-- Claim C9 (confirmed). Every PropertyFile instance reads the one
class-level dictionary reference, so an entry added by a parse on one
instance is visible through the properties of any other instance,
whatever its contents and resolver. -/
theorem c9_shared_property_storage (c2 : Option Json) (r2 rv : ResourceResolver) :
    (mkPropertyFile c2 r2).propsRef = (mkPropertyFile (some c9Doc) rv).propsRef ∧
    (match PropertyFile.parse (mkPropertyFile (some c9Doc) rv) initHeap with
     | Except.ok (_, h1) => dictGet? (heapGet h1 (mkPropertyFile c2 r2).propsRef) "IsSkin"
     | Except.error _ => none) = some ⟨PValue.float 2, ResourceType.FLOAT⟩ := ⟨rfl, rfl⟩

/-- Claim C5 counterexample. The name a slash b slash tex has an empty
extension, which differs from its stem, so no suffix repair happens and
resolution returns nothing even though the tga file is on disk. -/
theorem c5_counterexample :
    pathExists c5FS "Base/a/b/tex.tga" = true ∧
    ResourceResolver.resolveResourcePath ⟨"Base"⟩ c5FS ResourceType.TEXTURE_2D "a/b/tex"
      = none := ⟨rfl, rfl⟩

/-- Claim C8 counterexample. For a qualified name of a kind that is neither
character-material nor 2D-texture, resolution returns the joined path when
it exists on disk, refuting the claim that such kinds always resolve to
nothing. -/
theorem c8_counterexample :
    ResourceResolver.resolveResourcePath ⟨"Base"⟩ c8FS ResourceType.UNKNOWN "a/b/c.txt"
      = some "Base/a/b/c.txt" := rfl

/-- Claim C4 counterexample. For the DLC character 60 the candidate list
holds the DLC root but not the plain per-character root, refuting the claim
that both are present. -/
theorem c4_counterexample :
    ¬ (("DLC/01/Chara/060/Material" ∈ charaMatSearchPaths "A_R060_B") ∧
       ("Chara/060/Material" ∈ charaMatSearchPaths "A_R060_B")) := by decide

/-- Claim C6 counterexample. A key made of the ParameterValues substring
twice splits into three parts, so the two-way unpack raises ValueError
before the empty-group sentinel is even examined. -/
theorem c6_counterexample :
    PropertyFile.parse
      (mkPropertyFile
        (some (Json.obj [("ParameterValuesParameterValues", Json.str emptyBraces)]))
        ⟨"Base"⟩) initHeap
      = Except.error PyErr.valueError := rfl

/-- Claim C3 (code_bug). On the circular chain BarA to BarB to BarA the
source build never terminates on its own: for every recursion budget the
run is still recursing when the budget runs out, whatever the heap state.
No CycleDetected error and no configured maximum depth exist in the code;
only the host recursion limit eventually stops it. -/
theorem c3_cycle_no_detection :
    ∀ (n : Nat) (h : Heap),
      PropertyFile.build n (mkPropertyFile (some c3DocA) c3Res) c3FS h
        = BuildResult.out ∧
      PropertyFile.build n (mkPropertyFile (some c3DocB) c3Res) c3FS h
        = BuildResult.out := by
  intro n
  induction n with
  | zero => exact fun h => ⟨rfl, rfl⟩
  | succ n ih =>
    intro h
    constructor
    · have hstep : PropertyFile.build (n + 1) (mkPropertyFile (some c3DocA) c3Res) c3FS h
          = mergeWith (PropertyFile.build n) c3pfA c3FS h := rfl
      rw [hstep]
      exact mergeWith_propagates_out (PropertyFile.build n) c3pfA c3FS h
        ⟨PValue.str "BarB", ResourceType.CHARA_MAT⟩ "BarB" rfl rfl ((ih h).2)
    · have hstep : PropertyFile.build (n + 1) (mkPropertyFile (some c3DocB) c3Res) c3FS h
          = mergeWith (PropertyFile.build n) c3pfB c3FS h := rfl
      rw [hstep]
      exact mergeWith_propagates_out (PropertyFile.build n) c3pfB c3FS h
        ⟨PValue.str "BarA", ResourceType.CHARA_MAT⟩ "BarA" rfl rfl ((ih h).1)

/-- Claim C4 (corrected). For every bare character-material name matching
the pattern with a character number in the DLC table, the candidate list is
exactly the two common roots followed by the DLC root (the plain
per-character root is not a candidate), and resolution returns the first
candidate, in that declared order, whose joined path exists. -/
theorem c4_dlc_candidates (r : ResourceResolver) (fs : FS) (name : String)
    (ds : List Char) (dlcNo : Nat)
    (hm : matchCharaMat name = some ds)
    (hd : List.lookup (digitsToNat ds) CHARA_DLC_MAP = some dlcNo)
    (hs : hasSlash name = false) :
    charaMatSearchPaths name =
      ["Common/BasicResource", "Chara/CMN/Material",
       "DLC/" ++ padZero 2 dlcNo ++ "/Chara/" ++ padZero 3 (digitsToNat ds) ++ "/Material"] ∧
    ResourceResolver.resolveResourcePath r fs ResourceType.CHARA_MAT name =
      ((charaMatSearchPaths name).map
        (fun p => pathJoin3 r.basePath p (name ++ ".props.json"))).find?
        (fun mp => pathExists fs mp) := by
  constructor
  · unfold charaMatSearchPaths
    rw [hm]
    simp only [hd]
    rfl
  · unfold ResourceResolver.resolveResourcePath
    simp only [hs, Bool.false_eq_true, if_false]

/-- Claim C4 witness: the theorem applied to the name A_R060_B of the DLC
character 60 with the DLC file present on disk. -/
theorem c4_dlc_candidates_witness :
    matchCharaMat "A_R060_B" = some ['6', '0'] ∧
    List.lookup (digitsToNat ['6', '0']) CHARA_DLC_MAP = some 1 ∧
    hasSlash "A_R060_B" = false ∧
    ResourceResolver.resolveResourcePath ⟨"Base"⟩ c4FS ResourceType.CHARA_MAT "A_R060_B" =
      ((charaMatSearchPaths "A_R060_B").map
        (fun p => pathJoin3 "Base" p ("A_R060_B" ++ ".props.json"))).find?
        (fun mp => pathExists c4FS mp) ∧
    ResourceResolver.resolveResourcePath ⟨"Base"⟩ c4FS ResourceType.CHARA_MAT "A_R060_B" =
      some "Base/DLC/01/Chara/060/Material/A_R060_B.props.json" := by
  refine ⟨rfl, rfl, rfl, ?_, rfl⟩
  exact (c4_dlc_candidates ⟨"Base"⟩ c4FS "A_R060_B" ['6', '0'] 1 rfl rfl rfl).2

/-- Claim C5 (corrected). For every qualified name whose final component has
its stem equal to its extension without the dot, resolution replaces the
suffix with the canonical extension of the kind (tga for 2D-texture,
props.json for character-material) and returns the repaired path exactly
when it exists. The example name of the claim must itself carry the doubled
extension, as in a slash b slash tex.tex: a dotless name has an empty
extension, which is never equal to its nonempty stem. -/
theorem c5_suffix_repair (r : ResourceResolver) (fs : FS) (name : String)
    (kind : ResourceType) (ext : String)
    (hsl : hasSlash name = true)
    (hst : stemEqSuffixTail (pathJoin r.basePath name) = true)
    (hk : (kind = ResourceType.TEXTURE_2D ∧ ext = ".tga") ∨
          (kind = ResourceType.CHARA_MAT ∧ ext = ".props.json")) :
    ResourceResolver.resolveResourcePath r fs kind name =
      (if pathExists fs (withSuffix (pathJoin r.basePath name) ext)
       then some (withSuffix (pathJoin r.basePath name) ext) else none) := by
  unfold ResourceResolver.resolveResourcePath
  rcases hk with ⟨hk, he⟩ | ⟨hk, he⟩ <;> subst hk <;> subst he <;>
    simp only [hsl, if_true, hst]

/-- Claim C5 witness: the theorem applied to the name a slash b slash
tex.tex of kind 2D-texture, with the repaired tga file present on disk. -/
theorem c5_suffix_repair_witness :
    hasSlash "a/b/tex.tex" = true ∧
    stemEqSuffixTail (pathJoin "Base" "a/b/tex.tex") = true ∧
    ResourceResolver.resolveResourcePath ⟨"Base"⟩ c5FS ResourceType.TEXTURE_2D "a/b/tex.tex"
      = some "Base/a/b/tex.tga" := by
  refine ⟨rfl, rfl, ?_⟩
  exact (c5_suffix_repair ⟨"Base"⟩ c5FS "a/b/tex.tex" ResourceType.TEXTURE_2D ".tga"
    rfl rfl (Or.inl ⟨rfl, rfl⟩)).trans rfl

/-- Claim C8 (corrected). For every kind other than character-material and
2D-texture, resolution of a bare name (one without a path separator)
returns nothing whatever the filesystem holds; qualified names of such kinds
are still resolved when the joined path exists, as the counterexample
shows. -/
theorem c8_bare_unsupported_kinds (r : ResourceResolver) (fs : FS)
    (kind : ResourceType) (name : String)
    (hk1 : kind ≠ ResourceType.CHARA_MAT) (hk2 : kind ≠ ResourceType.TEXTURE_2D)
    (hs : hasSlash name = false) :
    ResourceResolver.resolveResourcePath r fs kind name = none := by
  cases kind with
  | CHARA_MAT => exact absurd rfl hk1
  | TEXTURE_2D => exact absurd rfl hk2
  | UNKNOWN =>
    unfold ResourceResolver.resolveResourcePath
    simp only [hs, Bool.false_eq_true, if_false]
  | INT =>
    unfold ResourceResolver.resolveResourcePath
    simp only [hs, Bool.false_eq_true, if_false]
  | FLOAT =>
    unfold ResourceResolver.resolveResourcePath
    simp only [hs, Bool.false_eq_true, if_false]
  | BOOL =>
    unfold ResourceResolver.resolveResourcePath
    simp only [hs, Bool.false_eq_true, if_false]
  | ARRAY =>
    unfold ResourceResolver.resolveResourcePath
    simp only [hs, Bool.false_eq_true, if_false]
  | VECTOR_4 =>
    unfold ResourceResolver.resolveResourcePath
    simp only [hs, Bool.false_eq_true, if_false]

/-- Claim C8 witness: the theorem applied to the bare name Foo of the
unknown kind, over a filesystem holding both a common-root texture for Foo
and a base-level file Foo. -/
theorem c8_bare_unsupported_kinds_witness :
    (ResourceType.UNKNOWN ≠ ResourceType.CHARA_MAT) ∧
    (ResourceType.UNKNOWN ≠ ResourceType.TEXTURE_2D) ∧
    hasSlash "Foo" = false ∧
    ResourceResolver.resolveResourcePath ⟨"Base"⟩ c8BareFS ResourceType.UNKNOWN "Foo"
      = none := by
  refine ⟨by decide, by decide, rfl, ?_⟩
  exact c8_bare_unsupported_kinds ⟨"Base"⟩ c8BareFS ResourceType.UNKNOWN "Foo"
    (by decide) (by decide) rfl

/-- A key that splits on ParameterValues into exactly two parts makes
parseField with the empty-group sentinel value a no-op. -/
theorem parseField_empty_group (pf : PropertyFile) (h : Heap) (k a b : String)
    (hk : pySplitOn "ParameterValues" k = [a, b]) :
    parseField pf h k (Json.str emptyBraces) = Except.ok (pf, h) := by
  by_cases hkP : k = "Parent"
  · subst hkP
    rw [show pySplitOn "ParameterValues" "Parent" = ["Parent"] from rfl] at hk
    simp at hk
  · have hc : strContains k "ParameterValues" = true := by
      unfold strContains
      rw [hk]
      rfl
    unfold parseField
    rw [if_neg hkP, if_pos hc, hk]
    rfl

/-- Claim C6 (corrected). A key in which ParameterValues occurs exactly once
(so that the split yields exactly two parts) with the literal empty-object
sentinel string as value contributes zero properties and raises no error,
both at the single key step and in a full parse of a document holding just
that key; a key holding the substring more than once raises ValueError from
the two-way unpack, as the counterexample shows. -/
theorem c6_empty_sentinel (pf : PropertyFile) (rv : ResourceResolver) (h : Heap)
    (k a b : String)
    (hk : pySplitOn "ParameterValues" k = [a, b]) :
    parseField pf h k (Json.str emptyBraces) = Except.ok (pf, h) ∧
    PropertyFile.parse (mkPropertyFile (some (Json.obj [(k, Json.str emptyBraces)])) rv) h
      = Except.ok
          (mkPropertyFile (some (Json.obj [(k, Json.str emptyBraces)])) rv, h) := by
  refine ⟨parseField_empty_group pf h k a b hk, ?_⟩
  have h1 := parseField_empty_group
    (mkPropertyFile (some (Json.obj [(k, Json.str emptyBraces)])) rv) h k a b hk
  show parseFields (mkPropertyFile (some (Json.obj [(k, Json.str emptyBraces)])) rv) h
      [(k, Json.str emptyBraces)] = _
  unfold parseFields
  rw [h1]
  rfl

/-- Claim C6 witness: the theorem applied to the key TextureParameterValues,
which splits into the parts Texture and the empty string. -/
theorem c6_empty_sentinel_witness :
    pySplitOn "ParameterValues" "TextureParameterValues" = ["Texture", ""] ∧
    PropertyFile.parse
      (mkPropertyFile
        (some (Json.obj [("TextureParameterValues", Json.str emptyBraces)])) ⟨"Base"⟩)
      initHeap
      = Except.ok
          (mkPropertyFile
            (some (Json.obj [("TextureParameterValues", Json.str emptyBraces)])) ⟨"Base"⟩,
           initHeap) := by
  refine ⟨rfl, ?_⟩
  exact (c6_empty_sentinel (mkPropertyFile none ⟨"Base"⟩) ⟨"Base"⟩ initHeap
    "TextureParameterValues" "Texture" "" rfl).2

/-- Claim C7 (confirmed). Parsing a document whose Vector value group holds
one record with parameter name n and a value record with the float fields
R, G, B and A stores under n a property of kind 4-component-vector whose
value is the list of the four fields in that order, for every prior heap. -/
theorem c7_vector_parsing (rv : ResourceResolver) (h : Heap) (n : String)
    (r g b a : Rat) :
    PropertyFile.parse (mkPropertyFile (some (c7Doc n r g b a)) rv) h
      = Except.ok (mkPropertyFile (some (c7Doc n r g b a)) rv,
          heapSetKey h classPropsRef n
            ⟨PValue.floatList [r, g, b, a], ResourceType.VECTOR_4⟩) := rfl

/-- The split function never returns an empty part list. -/
theorem splitSubAux_ne_nil (sep : List Char) :
    ∀ (n : Nat) (l : List Char), splitSubAux sep n l ≠ [] := by
  intro n
  induction n with
  | zero =>
    intro l
    cases l with
    | nil => simp [splitSubAux]
    | cons c cs => simp [splitSubAux]
  | succ n ih =>
    intro l
    cases l with
    | nil => simp [splitSubAux]
    | cons c cs =>
      simp only [splitSubAux]
      cases hdp : dropPre sep (c :: cs) with
      | some rest => simp
      | none =>
        cases hrec : splitSubAux sep n cs with
        | nil => simp
        | cons y ys => simp

/-- Splitting on a single character yields one part more than the number of
occurrences of that character, given enough fuel. -/
theorem splitSubAux_single_length (q : Char) :
    ∀ (n : Nat) (l : List Char), l.length ≤ n →
      (splitSubAux [q] n l).length = countCh q l + 1 := by
  intro n
  induction n with
  | zero =>
    intro l hl
    cases l with
    | nil => rfl
    | cons c cs => simp at hl
  | succ n ih =>
    intro l hl
    cases l with
    | nil => rfl
    | cons c cs =>
      have hcs : cs.length ≤ n := by
        simp only [List.length_cons] at hl
        omega
      simp only [splitSubAux]
      by_cases hc : c = q
      · have hdp : dropPre [q] (c :: cs) = some cs := by
          simp [dropPre, hc]
        rw [hdp]
        simp only [List.length_cons, ih cs hcs, countCh, if_pos hc]
        omega
      · have hdp : dropPre [q] (c :: cs) = none := by
          simp [dropPre, hc]
        rw [hdp]
        cases hrec : splitSubAux [q] n cs with
        | nil => exact absurd hrec (splitSubAux_ne_nil [q] n cs)
        | cons y ys =>
          have hlen := ih cs hcs
          rw [hrec] at hlen
          simp only [List.length_cons] at hlen ⊢
          simp only [countCh, if_neg hc]
          omega

/-- The quote split of a string has one part more than the number of quote
characters in the string. -/
theorem pySplitOn_quote_length (s : String) :
    (pySplitOn quoteStr s).length = countCh quoteCh s.toList + 1 := by
  unfold pySplitOn
  rw [List.length_map]
  exact splitSubAux_single_length quoteCh s.toList.length s.toList (Nat.le_refl _)

/-- Claim C10 (confirmed). For every string value ending in the quote
character whose total number of quote characters is not two, parseProperty
raises ValueError from the three-way unpack of the quote split instead of
returning a property. -/
theorem c10_quote_unpack (s : String) (hint : ResourceType)
    (hEnd : pyEndsWith s quoteCh = true)
    (hCnt : countCh quoteCh s.toList ≠ 2) :
    PropertyFile.parseProperty (Json.str s) hint = Except.error PyErr.valueError := by
  have hlen : (pySplitOn quoteStr s).length ≠ 3 := by
    rw [pySplitOn_quote_length]
    omega
  simp only [PropertyFile.parseProperty]
  rw [if_pos hEnd]
  revert hlen
  generalize pySplitOn quoteStr s = parts
  intro hlen
  match parts with
  | [] => rfl
  | [t] => rfl
  | [t, v] => rfl
  | [t, v, w] => exact absurd rfl hlen
  | t :: v :: w :: x :: rest => rfl

/-- Claim C10 witness: the theorem applied to the string made of the letters
A, B and C each followed by a quote character, which ends in a quote and
holds three quotes. -/
theorem c10_quote_unpack_witness :
    pyEndsWith c10Str quoteCh = true ∧
    countCh quoteCh c10Str.toList ≠ 2 ∧
    PropertyFile.parseProperty (Json.str c10Str) ResourceType.UNKNOWN
      = Except.error PyErr.valueError := by
  refine ⟨rfl, by decide, ?_⟩
  exact c10_quote_unpack c10Str ResourceType.UNKNOWN rfl (by decide)
